import Mathlib

/-!
# Verification of the screen-lock fleet-management server

Shallow embedding of the policy-resolution, device-registry and
action-lifecycle logic of the Django application (apps `policies`,
`devices`, `events`, `dashboard`), together with theorems settling the
specification claims.

Conventions of the embedding:
* machine timestamps are `Int` seconds, passed explicitly (the Django code
  calls `timezone.now()`; the clock is made an explicit parameter);
* database tables are Lean lists whose order is the underlying row order
  (primary-key / insertion order, which is what the SQL engine yields when a
  query's ORDER BY leaves ties unconstrained);
* `QuerySet.order_by` on a single key is modelled as a stable sort on that
  key, so that equal-key rows keep the underlying row order;
* Django JSON blobs are association lists `List (String × Int)`;
* fallible endpoints return `Except` or a numeric HTTP status code.
-/

namespace ScreenLock

/-! ## Policy data model — `src/policies/models.py` -/

/-- The `Policy.SCOPE_CHOICES`: global / group / device. -/
inductive Scope
  | global
  | group
  | device
deriving DecidableEq

/-- Row of the `policies` table (`Policy` model).  `id` is the primary key
(Django `Model.__eq__` compares primary keys, which is what the resolver's
dedup check `policy not in all_policies` uses).  Only the fields the claims
touch are carried: scope, priority, creation time, activity flag and the four
bounded numeric settings.  The model's `MinValueValidator`/`MaxValueValidator`
bounds are embedded separately in `policy_bounds_ok`. -/
structure Policy where
  id : Nat
  scope : Scope
  priority : Int
  created_at : Int
  is_active : Bool
  idle_timeout_seconds : Int
  max_unlock_attempts : Int
  lockout_duration_minutes : Int
  heartbeat_interval_seconds : Int
deriving DecidableEq

/-- Row of the `policy_assignments` table (`PolicyAssignment` model).  The
`policy` foreign key is embedded as the joined `Policy` row
(`select_related('policy')` in the resolver); `device` / `device_group` are
nullable foreign keys carried as primary keys. -/
structure PolicyAssignment where
  id : Nat
  policy : Policy
  device : Option Nat
  device_group : Option Nat
  is_active : Bool
deriving DecidableEq

/-- Snapshot of the policy-side database: `policies`, `policy_assignments`
and the `DeviceGroup.devices` many-to-many membership table as
(group id, device id) rows.  List order is row (insertion) order. -/
structure PolicyStore where
  policies : List Policy
  assignments : List PolicyAssignment
  memberships : List (Nat × Nat)
deriving DecidableEq

/-! ## `order_by` — stable single-key descending sort

`device_policy` (`src/policies/views.py:141-158`) orders each tier with
`.order_by('-policy__priority')` / `.order_by('-priority')`.  An explicit
`order_by` replaces the model's default `Meta.ordering`
(`['-priority', '-created_at']` on `Policy`), so only the priority key is
sorted on; ties are left in the underlying row order, modelled here by a
stable insertion sort. -/

/-- Insert `x` into a descending-sorted list, before the first element whose
key is ≤ `key x` (stable: an element already in the list keeps its place
relative to equal-key later insertions). -/
def insertDesc (key : α → Int) (x : α) : List α → List α
  | [] => [x]
  | y :: ys => if key y ≤ key x then x :: y :: ys else y :: insertDesc key x ys

/-- Stable sort by `key`, descending. -/
def orderByDesc (key : α → Int) : List α → List α
  | [] => []
  | x :: xs => insertDesc key x (orderByDesc key xs)

/-! ## The policy resolver — `device_policy`, `src/policies/views.py:129-195` -/

/-- The `DeviceGroup.devices` membership test (`device_group__devices=device`). -/
def memberOf (st : PolicyStore) (g d : Nat) : Bool :=
  st.memberships.contains (g, d)

/-- Device tier: `PolicyAssignment.objects.filter(device=device,
is_active=True, policy__is_active=True).order_by('-policy__priority')`. -/
def device_assignments (st : PolicyStore) (d : Nat) : List PolicyAssignment :=
  orderByDesc (fun a => a.policy.priority)
    (st.assignments.filter (fun a =>
      a.device == some d && a.is_active && a.policy.is_active))

/-- Group tier: `PolicyAssignment.objects.filter(device_group__devices=device,
is_active=True, policy__is_active=True).order_by('-policy__priority')`. -/
def group_assignments (st : PolicyStore) (d : Nat) : List PolicyAssignment :=
  orderByDesc (fun a => a.policy.priority)
    (st.assignments.filter (fun a =>
      (match a.device_group with
        | some g => memberOf st g d
        | none => false) && a.is_active && a.policy.is_active))

/-- Global tier: `Policy.objects.filter(scope='global',
is_active=True).order_by('-priority')`. -/
def global_policies (st : PolicyStore) : List Policy :=
  orderByDesc (fun p => p.priority)
    (st.policies.filter (fun p => p.scope == Scope.global && p.is_active))

/-- The `policy in all_policies` — Django model equality is primary-key
equality. -/
def containsPid (acc : List Policy) (p : Policy) : Bool :=
  acc.any (fun q => q.id == p.id)

/-- The first resolver loop: append every device-tier policy (no membership
check in the source for this tier). -/
def appendPolicies (acc : List Policy) (ps : List Policy) : List Policy :=
  ps.foldl (fun acc p => acc ++ [p]) acc

/-- The second and third resolver loops: append each policy unless a policy
with the same primary key is already present. -/
def appendIfAbsent (acc : List Policy) (ps : List Policy) : List Policy :=
  ps.foldl (fun acc p => if containsPid acc p then acc else acc ++ [p]) acc

/-- The `all_policies` as built by the three loops of `device_policy`. -/
def applied_policies (st : PolicyStore) (d : Nat) : List Policy :=
  let l1 := appendPolicies [] ((device_assignments st d).map (fun a => a.policy))
  let l2 := appendIfAbsent l1 ((group_assignments st d).map (fun a => a.policy))
  appendIfAbsent l2 (global_policies st)

/-- The `effective_policy = all_policies[0] if all_policies else None`. -/
def effective_policy (st : PolicyStore) (d : Nat) : Option Policy :=
  (applied_policies st d).head?

/-- Specification-side description of the resolver output (C1): the
concatenation device-tier ++ group-tier ++ global-tier deduplicated by policy
identity, keeping first occurrences. -/
def dedupByPid (ps : List Policy) : List Policy :=
  ps.foldl (fun acc p => if containsPid acc p then acc else acc ++ [p]) []

/-! ## Policy deletion — `api_policy_detail`, `src/dashboard/views.py:639-749` -/

inductive DeleteResult
  | success
  | notFound
deriving DecidableEq

/-- The `policy.delete()`: `PolicyAssignment.policy` is declared with
`on_delete=models.CASCADE` (`src/policies/models.py:151-155`), so Django
deletes every assignment row referencing the policy together with it. -/
def cascade_delete_policy (st : PolicyStore) (pid : Nat) : PolicyStore :=
  { st with
    policies := st.policies.filter (fun p => p.id != pid)
    assignments := st.assignments.filter (fun a => a.policy.id != pid) }

/-- DELETE branch of `api_policy_detail`: looks the policy up by id (404
when absent); the `hasattr(policy, ...)` guard on `is_system_policy` is
vacuous (the `Policy` model has no such field), no referencing-assignments
check exists, and the policy is deleted with cascade; success is returned. -/
def api_policy_delete (st : PolicyStore) (pid : Nat) :
    DeleteResult × PolicyStore :=
  match st.policies.find? (fun p => p.id == pid) with
  | none => (DeleteResult.notFound, st)
  | some _ => (DeleteResult.success, cascade_delete_policy st pid)

/-! ## Assignment creation and update — `src/policies/serializers.py` with
`PolicyAssignmentListCreateView` / `PolicyAssignmentDetailView` -/

/-- The `PolicyAssignmentCreateSerializer.validate`
(`src/policies/serializers.py:89-100`). -/
def assignment_validate (device device_group : Option Nat) :
    Except String Unit :=
  if device.isNone && device_group.isNone then
    Except.error "Either device or device_group must be specified"
  else if device.isSome && device_group.isSome then
    Except.error "Cannot specify both device and device_group"
  else Except.ok ()

/-- The `unique_together` on (policy, device) and (policy, device_group)
(`src/policies/models.py:183-186`) as the SQL engine enforces it: rows with
a NULL in the indexed pair never conflict. -/
def unique_conflict (rows : List PolicyAssignment) (pid : Nat)
    (device device_group : Option Nat) : Bool :=
  rows.any (fun a => a.policy.id == pid &&
    ((device.isSome && a.device == device)
      || (device_group.isSome && a.device_group == device_group)))

/-- POST on `PolicyAssignmentListCreateView`: serializer validation, then
the insert, which the unique constraints may reject. -/
def assignment_create (st : PolicyStore) (aid : Nat) (p : Policy)
    (device device_group : Option Nat) (is_active : Bool) :
    Except String PolicyStore :=
  match assignment_validate device device_group with
  | Except.error e => Except.error e
  | Except.ok _ =>
    if unique_conflict st.assignments p.id device device_group then
      Except.error "IntegrityError"
    else
      Except.ok { st with assignments := st.assignments ++
        [{ id := aid, policy := p, device := device,
           device_group := device_group, is_active := is_active }] }

/-- PUT/PATCH on `PolicyAssignmentDetailView` with
`PolicyAssignmentSerializer`: `policy` and `device` are read-only nested
serializers, `device_group` and `is_active` are writable, and the serializer
has no `validate` — the exactly-one-target rule is not re-checked.  An outer
`none` means the key is absent from the PATCH body. -/
def assignment_update (st : PolicyStore) (aid : Nat)
    (device_group : Option (Option Nat)) (is_active : Option Bool) :
    Except String PolicyStore :=
  match st.assignments.find? (fun a => a.id == aid) with
  | none => Except.error "NotFound"
  | some a =>
    let a2 := { a with
      device_group := device_group.getD a.device_group
      is_active := is_active.getD a.is_active }
    if st.assignments.any (fun b => b.id != aid && b.policy.id == a2.policy.id
        && a2.device_group.isSome && b.device_group == a2.device_group) then
      Except.error "IntegrityError"
    else
      Except.ok { st with assignments :=
        st.assignments.map (fun b => if b.id == aid then a2 else b) }

/-! ## Policy creation paths and the numeric bounds -/

/-- The model validators (`src/policies/models.py:35-110`): idle timeout
30..86400 s, max attempts 1..10, lockout 1..1440 min, heartbeat
30..3600 s. -/
def policy_bounds_ok (p : Policy) : Bool :=
  30 ≤ p.idle_timeout_seconds && p.idle_timeout_seconds ≤ 86400
    && 1 ≤ p.max_unlock_attempts && p.max_unlock_attempts ≤ 10
    && 1 ≤ p.lockout_duration_minutes && p.lockout_duration_minutes ≤ 1440
    && 30 ≤ p.heartbeat_interval_seconds && p.heartbeat_interval_seconds ≤ 3600

/-- JSON body of a policy create/update request; `none` = key absent. -/
structure PolicyPayload where
  scope : Option Scope
  priority : Option Int
  is_active : Option Bool
  idle_timeout_seconds : Option Int
  max_unlock_attempts : Option Int
  lockout_duration_minutes : Option Int
  heartbeat_interval_seconds : Option Int
deriving DecidableEq

/-- The policy row a payload produces, with the model / `data.get` defaults
(300 s idle, 3 attempts, 15 min lockout, 60 s heartbeat, priority 0,
active). -/
def policy_from_payload (pid : Nat) (now : Int) (sc : Scope)
    (pl : PolicyPayload) : Policy :=
  { id := pid
    scope := sc
    priority := pl.priority.getD 0
    created_at := now
    is_active := pl.is_active.getD true
    idle_timeout_seconds := pl.idle_timeout_seconds.getD 300
    max_unlock_attempts := pl.max_unlock_attempts.getD 3
    lockout_duration_minutes := pl.lockout_duration_minutes.getD 15
    heartbeat_interval_seconds := pl.heartbeat_interval_seconds.getD 60 }

/-- POST on `PolicyListCreateView` (`src/policies/views.py:13-42`) through
`PolicyCreateUpdateSerializer`: DRF copies the model validators onto the
serializer fields, so an out-of-range numeric value fails validation and
nothing is saved; in-range values are stored exactly as given.  `scope`
defaults to global. -/
def drf_policy_create (st : PolicyStore) (pid : Nat) (now : Int)
    (pl : PolicyPayload) : Except String PolicyStore :=
  let p := policy_from_payload pid now (pl.scope.getD Scope.global) pl
  if policy_bounds_ok p then
    Except.ok { st with policies := st.policies ++ [p] }
  else Except.error "ValidationRange"

/-- POST on the dashboard endpoint `api_policies_list`
(`src/dashboard/views.py:587-633`): builds the row with
`Policy.objects.create(...)`, which never runs the model validators — the
payload values are stored verbatim whatever their range.  `data` must carry
`scope` (a missing required key raises and yields a 400 with nothing
stored). -/
def api_policies_post (st : PolicyStore) (pid : Nat) (now : Int)
    (pl : PolicyPayload) : Bool × PolicyStore :=
  match pl.scope with
  | none => (false, st)
  | some sc =>
    (true, { st with policies := st.policies ++ [policy_from_payload pid now sc pl] })

/-- The row resulting from overriding a stored policy with the provided
payload keys — `data.get(key, current)` in the dashboard PUT, partial-update
field assignment in the DRF update serializer; keys absent from the body
keep their stored values. -/
def policy_with_payload (p : Policy) (pl : PolicyPayload) : Policy :=
  { p with
    scope := pl.scope.getD p.scope
    priority := pl.priority.getD p.priority
    is_active := pl.is_active.getD p.is_active
    idle_timeout_seconds := pl.idle_timeout_seconds.getD p.idle_timeout_seconds
    max_unlock_attempts := pl.max_unlock_attempts.getD p.max_unlock_attempts
    lockout_duration_minutes :=
      pl.lockout_duration_minutes.getD p.lockout_duration_minutes
    heartbeat_interval_seconds :=
      pl.heartbeat_interval_seconds.getD p.heartbeat_interval_seconds }

/-- PUT on the dashboard endpoint `api_policy_detail`
(`src/dashboard/views.py:684-727`): looks the policy up by id (404 when
absent), then `data.get(key, current)` and `policy.save()` — no validation,
values stored verbatim. -/
def api_policy_put (st : PolicyStore) (pid : Nat) (pl : PolicyPayload) :
    Bool × PolicyStore :=
  match st.policies.find? (fun p => p.id == pid) with
  | none => (false, st)
  | some p =>
    (true, { st with policies := st.policies.map (fun q =>
      if q.id == pid then policy_with_payload p pl else q) })

/-- Validation the DRF update serializer performs on a request body: each
provided numeric value is checked against the model validators; absent keys
are not validated (the stored values for them are untouched and never
re-checked). -/
def payload_bounds_ok (pl : PolicyPayload) : Bool :=
  (match pl.idle_timeout_seconds with
    | some v => 30 ≤ v && v ≤ 86400
    | none => true)
  && (match pl.max_unlock_attempts with
    | some v => 1 ≤ v && v ≤ 10
    | none => true)
  && (match pl.lockout_duration_minutes with
    | some v => 1 ≤ v && v ≤ 1440
    | none => true)
  && (match pl.heartbeat_interval_seconds with
    | some v => 30 ≤ v && v ≤ 3600
    | none => true)

/-- PATCH/PUT on `PolicyDetailView` (`src/policies/views.py:45-55`) through
`PolicyCreateUpdateSerializer`: 404 when the policy does not exist, a
validation error — with nothing stored — when any provided numeric value is
out of range, else the provided values are saved exactly as given. -/
def drf_policy_update (st : PolicyStore) (pid : Nat) (pl : PolicyPayload) :
    Except String PolicyStore :=
  match st.policies.find? (fun p => p.id == pid) with
  | none => Except.error "NotFound"
  | some p =>
    if payload_bounds_ok pl then
      Except.ok { st with policies := st.policies.map (fun q =>
        if q.id == pid then policy_with_payload p pl else q) }
    else Except.error "ValidationRange"

/-! ## Device actions — `DeviceAction`, `src/devices/models.py:327-400`,
and `DeviceActionDetailView`, `src/devices/views.py:254-260` -/

inductive ActionStatus
  | pending
  | sent
  | acknowledged
  | completed
  | failed
  | timeout
deriving DecidableEq

/-- The statuses the specification calls terminal. -/
def ActionStatus.isTerminal : ActionStatus → Bool
  | ActionStatus.completed => true
  | ActionStatus.failed => true
  | ActionStatus.timeout => true
  | _ => false

/-- Row of the `device_actions` table, restricted to the lifecycle fields. -/
structure DeviceAction where
  id : Nat
  action_type : String
  status : ActionStatus
  completed_at : Option Int
  error_msg : Option String
deriving DecidableEq

/-- The `DeviceAction.mark_completed` (`src/devices/models.py:385-390`): sets
the status and stamps `completed_at` unconditionally — the current status is
never inspected. -/
def mark_completed (a : DeviceAction) (now : Int) : DeviceAction :=
  { a with status := ActionStatus.completed, completed_at := some now }

/-- The `DeviceAction.mark_failed` (`src/devices/models.py:392-399`): likewise
unconditional; stores the error message into the metadata blob when given. -/
def mark_failed (a : DeviceAction) (now : Int) (e : Option String) :
    DeviceAction :=
  { a with
    status := ActionStatus.failed
    completed_at := some now
    error_msg := (match e with | some m => some m | none => a.error_msg) }

/-- PATCH on `DeviceActionDetailView` via `DeviceActionModelSerializer`:
`status` is an ordinary writable field and no transition check exists. -/
def action_detail_update (a : DeviceAction) (new_status : Option ActionStatus) :
    DeviceAction :=
  { a with status := new_status.getD a.status }

/-! ## Device registry — `src/devices/models.py`, `src/devices/views.py` -/

/-- Row of the `devices` table, restricted to the fields the claims touch.
`device_id` is the UUID identity (modelled as `Nat`), `id` the primary key,
`hardware_info` the free-form JSON blob. -/
structure Device where
  id : Nat
  device_id : Nat
  name : String
  hostname : String
  mac_address : String
  status : String
  is_locked : Bool
  last_seen : Option Int
  hardware_info : List (String × Int)
  is_active : Bool
deriving DecidableEq

/-- The `timedelta(minutes=5)` in seconds — a literal inside
`Device.is_online`, not read from any policy. -/
def ONLINE_THRESHOLD_SECONDS : Int := 300

/-- The `Device.is_online` (`src/devices/models.py:120-127`): `False` when the
device has never been seen, else `now − last_seen < 5 minutes` (strict). -/
def is_online (d : Device) (now : Int) : Bool :=
  match d.last_seen with
  | none => false
  | some t => now - t < ONLINE_THRESHOLD_SECONDS

/-- Python `dict.update`: keys of the old dict keep their place (values
overwritten), unseen keys of the new dict are appended in order. -/
def mergeAssoc (old nw : List (String × Int)) : List (String × Int) :=
  old.map (fun kv =>
    match nw.find? (fun kv2 => kv2.1 == kv.1) with
    | some kv2 => (kv.1, kv2.2)
    | none => kv)
  ++ nw.filter (fun kv2 => !(old.any (fun kv => kv.1 == kv2.1)))

/-- The `Device.update_heartbeat` (`src/devices/models.py:135-149`) — merges
`hardware_info` via `dict.update`.  No view in the repository calls it; the
heartbeat endpoint below manipulates the device directly. -/
def update_heartbeat (d : Device)
    (hardware_info : Option (List (String × Int))) (now : Int) : Device :=
  { d with
    last_seen := some now
    status := "online"
    hardware_info := match hardware_info with
      | some h => mergeAssoc d.hardware_info h
      | none => d.hardware_info }

/-- Row of the `device_heartbeats` table (`DeviceHeartbeat` model,
`src/events/models.py:204-235`). -/
structure HeartbeatRecord where
  device_pk : Nat
  status : String
  is_locked : Bool
  agent_version : String
  metadata : List (String × Int)
deriving DecidableEq

/-- Snapshot of the device-side database. -/
structure DeviceStore where
  devices : List Device
  heartbeats : List HeartbeatRecord
deriving DecidableEq

/-- Body accepted by `DeviceHeartbeatSerializer`
(`src/devices/serializers.py:62-72`): `status` and `is_locked` required,
the rest optional. -/
structure HeartbeatPayload where
  status : String
  is_locked : Bool
  agent_version : Option String
  metadata : Option (List (String × Int))
deriving DecidableEq

/-- The `device_heartbeat` (`src/devices/views.py:88-120`): 404 when no device
has the given `device_id`; otherwise overwrite `status` and `is_locked`, set
`last_seen := now`, save, and append a `DeviceHeartbeat` row carrying the
reported metadata.  The device's own `hardware_info` is not touched. -/
def device_heartbeat (st : DeviceStore) (did : Nat) (pl : HeartbeatPayload)
    (now : Int) : Nat × DeviceStore :=
  match st.devices.find? (fun d => d.device_id == did) with
  | none => (404, st)
  | some d =>
    let d2 := { d with
      status := pl.status
      is_locked := pl.is_locked
      last_seen := some now }
    let hb : HeartbeatRecord :=
      { device_pk := d.id, status := pl.status, is_locked := pl.is_locked,
        agent_version := pl.agent_version.getD "",
        metadata := pl.metadata.getD [] }
    (200, { devices := st.devices.map (fun x => if x.id == d.id then d2 else x),
            heartbeats := st.heartbeats ++ [hb] })

/-- Registration body (`DeviceCreateSerializer`,
`src/devices/serializers.py:30-47`) — the serializer defines no uniqueness
validation on hostname or MAC address, and the `Device` model has no
unique constraint on them either. -/
structure RegisterPayload where
  name : String
  hostname : String
  mac_address : String
deriving DecidableEq

/-- POST on `DeviceListCreateView` (`src/devices/views.py:17-68`): always
saves a new row; `device_id` is a freshly generated UUID (passed here as
`fresh_device_id`), `status` defaults to offline, `is_active` to true. -/
def device_register (st : DeviceStore) (pl : RegisterPayload)
    (fresh_pk fresh_device_id : Nat) : Nat × DeviceStore :=
  (201, { st with devices := st.devices ++
    [{ id := fresh_pk, device_id := fresh_device_id, name := pl.name,
       hostname := pl.hostname, mac_address := pl.mac_address,
       status := "offline", is_locked := false, last_seen := none,
       hardware_info := [], is_active := true }] })

/-! ## The lock/unlock endpoints — `src/devices/views.py:263-324` and
`Device.lock_screen` / `Device.unlock_screen`,
`src/devices/models.py:151-206`

Python is untyped, so the values flowing through these calls are modelled by
a small dynamic-value type, and the keyword-argument and foreign-key checks
Django performs are modelled exactly where the original raises. -/

/-- Dynamic Python value. -/
inductive PyVal
  | pynone
  | pyuser (uid : Nat)
  | pystr (s : String)
  | pybool (b : Bool)
deriving DecidableEq

/-- Field names of the `Event` model (`src/events/models.py:10-119`).  The
free-text field is `message`; there is no `details` field. -/
def event_model_fields : List String :=
  ["event_id", "event_type", "device", "user", "timestamp", "severity",
   "message", "metadata", "ip_address", "user_agent", "source"]

/-- The `Event.objects.create(**kwargs)` — `Model.__init__` raises `TypeError`
on any keyword that is not a model field. -/
def event_create (kwargs : List (String × PyVal)) : Except String Unit :=
  if kwargs.all (fun kv => event_model_fields.contains kv.1) then Except.ok ()
  else Except.error "TypeError: Event got an unexpected keyword argument"

/-- The `DeviceAction.objects.create(initiated_by=...)` — `initiated_by` is a
nullable `ForeignKey(User)`; assigning anything but a user or `None` raises
`ValueError`. -/
def device_action_create (initiated_by : PyVal) : Except String Unit :=
  match initiated_by with
  | PyVal.pynone => Except.ok ()
  | PyVal.pyuser _ => Except.ok ()
  | _ => Except.error "ValueError: initiated_by must be a User instance"

/-- Python string interpolation of a dynamic value. -/
def py_format : PyVal → String
  | PyVal.pynone => "None"
  | PyVal.pyuser n => "User " ++ toString n
  | PyVal.pystr s => s
  | PyVal.pybool b => toString b

/-- The device fields `lock_screen` / `unlock_screen` mutate. -/
structure LockDevice where
  is_locked : Bool
  status : String
  last_lock_time : Option Int
  last_unlock_time : Option Int
  last_seen : Option Int
deriving DecidableEq

/-- The `Device.lock_screen(self, reason="Manual lock", admin_user=None)`
(`src/devices/models.py:151-178`): saves the device as locked, creates a
`DeviceAction` with `initiated_by=admin_user`, then creates an `Event`
passing the keyword `details` — not an `Event` field — and returns `True`. -/
def lock_screen (d : LockDevice) (reason admin_user : PyVal) (now : Int) :
    Except String (LockDevice × PyVal) :=
  let d2 := { d with
    is_locked := true
    status := "locked"
    last_lock_time := some now }
  match device_action_create admin_user with
  | Except.error e => Except.error e
  | Except.ok _ =>
    match event_create
        [("device", PyVal.pynone), ("user", admin_user),
         ("event_type", PyVal.pystr "lock"),
         ("details", PyVal.pystr ("Screen locked: " ++ py_format reason)),
         ("severity", PyVal.pystr "info")] with
    | Except.error e => Except.error e
    | Except.ok _ => Except.ok (d2, PyVal.pybool true)

/-- The `Device.unlock_screen(self, admin_user=None)`
(`src/devices/models.py:180-206`): saves the device as unlocked (status
online/offline per `is_online`), creates a `DeviceAction`, then an `Event`
with the same undefined `details` keyword, and returns `True`. -/
def unlock_screen (d : LockDevice) (admin_user : PyVal) (now : Int) :
    Except String (LockDevice × PyVal) :=
  let d2 := { d with
    is_locked := false
    status := (match d.last_seen with
      | some t => if now - t < ONLINE_THRESHOLD_SECONDS then "online" else "offline"
      | none => "offline")
    last_unlock_time := some now }
  match device_action_create admin_user with
  | Except.error e => Except.error e
  | Except.ok _ =>
    match event_create
        [("device", PyVal.pynone), ("user", admin_user),
         ("event_type", PyVal.pystr "unlock"),
         ("details", PyVal.pystr "Screen unlocked by administrator"),
         ("severity", PyVal.pystr "info")] with
    | Except.error e => Except.error e
    | Except.ok _ => Except.ok (d2, PyVal.pybool true)

/-- Positional-argument binding for `lock_screen`: Python signature
`(self, reason="Manual lock", admin_user=None)`. -/
def lock_screen_call (d : LockDevice) (args : List PyVal) (now : Int) :
    Except String (LockDevice × PyVal) :=
  match args with
  | [] => lock_screen d (PyVal.pystr "Manual lock") PyVal.pynone now
  | [a1] => lock_screen d a1 PyVal.pynone now
  | [a1, a2] => lock_screen d a1 a2 now
  | _ => Except.error "TypeError: lock_screen takes from 1 to 3 positional arguments"

/-- Positional-argument binding for `unlock_screen`: Python signature
`(self, admin_user=None)` — two extra positional arguments raise
`TypeError` before the body runs. -/
def unlock_screen_call (d : LockDevice) (args : List PyVal) (now : Int) :
    Except String (LockDevice × PyVal) :=
  match args with
  | [] => unlock_screen d PyVal.pynone now
  | [a1] => unlock_screen d a1 now
  | _ => Except.error "TypeError: unlock_screen takes from 1 to 2 positional arguments"

/-- The `result.id` as the views evaluate it on the value returned by
`lock_screen` / `unlock_screen`: those return `True`, and no dynamic value
here carries an `id` attribute. -/
def py_attr_id : PyVal → Except String Nat
  | _ => Except.error "AttributeError: object has no attribute id"

/-- The roles `device_lock` / `device_unlock` admit. -/
def lock_allowed_roles : List String := ["superadmin", "security", "it_admin"]

/-- The `device_lock` (`src/devices/views.py:263-292`): role check, then
`device.lock_screen(request.user, reason)` — note the positional order —
inside a blanket `try/except` that maps any exception to HTTP 500.  On a
normal return the view would still evaluate `result.id`. -/
def device_lock_view (role : String) (d : LockDevice) (u : PyVal)
    (reason : String) (now : Int) : Nat :=
  if lock_allowed_roles.contains role then
    match lock_screen_call d [u, PyVal.pystr reason] now with
    | Except.error _ => 500
    | Except.ok (_, result) =>
      match py_attr_id result with
      | Except.error _ => 500
      | Except.ok _ => 200
  else 403

/-- The `device_unlock` (`src/devices/views.py:295-324`): same shape, calling
`device.unlock_screen(request.user, reason)` with two positional
arguments. -/
def device_unlock_view (role : String) (d : LockDevice) (u : PyVal)
    (reason : String) (now : Int) : Nat :=
  if lock_allowed_roles.contains role then
    match unlock_screen_call d [u, PyVal.pystr reason] now with
    | Except.error _ => 500
    | Except.ok (_, result) =>
      match py_attr_id result with
      | Except.error _ => 500
      | Except.ok _ => 200
  else 403

/-! ## Concrete stores used as witnesses and counterexamples -/

/-- A device-scoped policy with priority 0, created at time 30. -/
def polDev : Policy :=
  { id := 11, scope := Scope.device, priority := 0, created_at := 30, is_active := true,
    idle_timeout_seconds := 300, max_unlock_attempts := 3,
    lockout_duration_minutes := 15, heartbeat_interval_seconds := 60 }

/-- A group-scoped policy with priority 100, created at time 20. -/
def polGrp : Policy :=
  { polDev with id := 12, scope := Scope.group, priority := 100, created_at := 20 }

/-- A global-scope policy with priority 1, created at time 10. -/
def polGlob : Policy :=
  { polDev with id := 13, scope := Scope.global, priority := 1, created_at := 10 }

/-- Store for the precedence witness: device 1 is in group 5; `polDev` is
assigned to device 1 directly, `polGrp` to group 5, `polGlob` is global. -/
def precStore : PolicyStore :=
  { policies := [polGlob, polGrp, polDev]
    assignments :=
      [ { id := 1, policy := polGrp, device := none, device_group := some 5, is_active := true }
      , { id := 2, policy := polDev, device := some 1, device_group := none, is_active := true } ]
    memberships := [(5, 1)] }

/-- The older of two equal-priority device-tier policies (created at 10). -/
def polOld : Policy :=
  { id := 1, scope := Scope.device, priority := 5, created_at := 10, is_active := true,
    idle_timeout_seconds := 300, max_unlock_attempts := 3,
    lockout_duration_minutes := 15, heartbeat_interval_seconds := 60 }

/-- The newer equal-priority policy (created at 20). -/
def polNew : Policy := { polOld with id := 2, created_at := 20 }

/-- Store whose rows are in primary-key (insertion) order: the older
policy's assignment row precedes the newer one, as rows come back from the
database when the ORDER BY leaves ties unconstrained. -/
def tieStore : PolicyStore :=
  { policies := [polOld, polNew]
    assignments :=
      [ { id := 1, policy := polOld, device := some 1, device_group := none, is_active := true }
      , { id := 2, policy := polNew, device := some 1, device_group := none, is_active := true } ]
    memberships := [] }

/-- The store `assignment_update` produces in the C5 counterexample: its
first assignment carries both a device and a group target. -/
def bothTargetsStore : PolicyStore :=
  { policies := [polOld, polNew]
    assignments :=
      [ { id := 1, policy := polOld, device := some 1, device_group := some 7, is_active := true }
      , { id := 2, policy := polNew, device := some 1, device_group := none, is_active := true } ]
    memberships := [] }

/-- A store with no policies, assignments or memberships. -/
def emptyPolicyStore : PolicyStore :=
  { policies := [], assignments := [], memberships := [] }

/-- Policy-creation body whose idle timeout (5 s) is far below the 30 s
lower bound; the other numeric keys are absent (model defaults apply). -/
def badPayload : PolicyPayload :=
  { scope := some Scope.global, priority := none, is_active := none,
    idle_timeout_seconds := some 5, max_unlock_attempts := none,
    lockout_duration_minutes := none, heartbeat_interval_seconds := none }

/-- An action already in the terminal `failed` status. -/
def failedAction : DeviceAction :=
  { id := 1, action_type := "lock", status := ActionStatus.failed,
    completed_at := some 50, error_msg := none }

/-- A registered, active device last seen at time 100. -/
def devA : Device :=
  { id := 1, device_id := 7, name := "PC-1", hostname := "pc1",
    mac_address := "AA:BB", status := "offline", is_locked := false,
    last_seen := some 100, hardware_info := [("cpu", 4)], is_active := true }

/-- Device store holding `devA` and no heartbeat rows. -/
def devStore : DeviceStore := { devices := [devA], heartbeats := [] }

/-- A heartbeat body reporting a locked device with fresh metadata. -/
def hbPayload : HeartbeatPayload :=
  { status := "online", is_locked := true, agent_version := some "1.2",
    metadata := some [("ram", 8)] }

/-- A registration body matching `devA`'s hostname and MAC address. -/
def regPayload : RegisterPayload :=
  { name := "PC-1", hostname := "pc1", mac_address := "AA:BB" }

/-- An unlocked, online device for the lock-endpoint witness. -/
def lockDevA : LockDevice :=
  { is_locked := false, status := "online", last_lock_time := none,
    last_unlock_time := none, last_seen := some 100 }

/-! ## Sorting lemmas for `orderByDesc` -/

theorem insertDesc_cons (key : α → Int) (x y : α) (ys : List α) :
    insertDesc key x (y :: ys) =
      if key y ≤ key x then x :: y :: ys else y :: insertDesc key x ys := rfl

theorem mem_insertDesc (key : α → Int) (x : α) (l : List α) (a : α) :
    a ∈ insertDesc key x l ↔ a = x ∨ a ∈ l := by
  induction l with
  | nil => simp [insertDesc]
  | cons y ys ih =>
    rw [insertDesc_cons]
    by_cases h : key y ≤ key x
    · simp [h]
    · simp only [if_neg h, List.mem_cons, ih]
      tauto

theorem sorted_insertDesc (key : α → Int) (x : α) (l : List α)
    (h : l.Pairwise (fun a b => key b ≤ key a)) :
    (insertDesc key x l).Pairwise (fun a b => key b ≤ key a) := by
  induction l with
  | nil => simp [insertDesc]
  | cons y ys ih =>
    rcases List.pairwise_cons.mp h with ⟨hy, hys⟩
    rw [insertDesc_cons]
    by_cases hxy : key y ≤ key x
    · rw [if_pos hxy]
      refine List.pairwise_cons.mpr ⟨?_, h⟩
      intro z hz
      rcases List.mem_cons.mp hz with hzy | hzys
      · subst hzy; exact hxy
      · exact le_trans (hy z hzys) hxy
    · rw [if_neg hxy]
      refine List.pairwise_cons.mpr ⟨?_, ih hys⟩
      intro z hz
      rcases (mem_insertDesc key x ys z).mp hz with hzx | hzys
      · subst hzx; exact le_of_lt (lt_of_not_le hxy)
      · exact hy z hzys

theorem sorted_orderByDesc (key : α → Int) (l : List α) :
    (orderByDesc key l).Pairwise (fun a b => key b ≤ key a) := by
  induction l with
  | nil => simp [orderByDesc]
  | cons x xs ih => exact sorted_insertDesc key x (orderByDesc key xs) ih

theorem filter_insertDesc (key : α → Int) (x : α) (l : List α) (k : Int)
    (h : l.Pairwise (fun a b => key b ≤ key a)) :
    (insertDesc key x l).filter (fun y => key y == k) =
      if key x = k then x :: l.filter (fun y => key y == k)
      else l.filter (fun y => key y == k) := by
  induction l with
  | nil =>
    by_cases hk : key x = k <;> simp [insertDesc, List.filter_cons, hk]
  | cons y ys ih =>
    rcases List.pairwise_cons.mp h with ⟨hy, hys⟩
    rw [insertDesc_cons]
    by_cases hxy : key y ≤ key x
    · rw [if_pos hxy]
      by_cases hk : key x = k <;>
        by_cases hyk : key y = k <;>
          simp [List.filter_cons, hk, hyk]
    · have hlt : key x < key y := lt_of_not_le hxy
      rw [if_neg hxy]
      by_cases hk : key x = k
      · have hyk : ¬ key y = k := by omega
        simp [List.filter_cons, hyk, ih hys, hk]
      · by_cases hyk : key y = k <;>
          simp [List.filter_cons, hyk, ih hys, hk]

/-- Stability of the modelled `order_by`: for every key value the rows with
that key come out in exactly the order they appear in the underlying table —
the sort introduces no tie-break of its own. -/
theorem filter_orderByDesc (key : α → Int) (l : List α) (k : Int) :
    (orderByDesc key l).filter (fun y => key y == k) =
      l.filter (fun y => key y == k) := by
  induction l with
  | nil => rfl
  | cons x xs ih =>
    simp only [orderByDesc]
    rw [filter_insertDesc key x (orderByDesc key xs) k (sorted_orderByDesc key xs)]
    by_cases hk : key x = k <;> simp [List.filter_cons, hk, ih]

/-! ## Dedup lemmas for the resolver loops -/

theorem appendPolicies_eq (ps : List Policy) :
    ∀ acc : List Policy, appendPolicies acc ps = acc ++ ps := by
  induction ps with
  | nil => intro acc; simp [appendPolicies]
  | cons p ps ih =>
    intro acc
    simp only [appendPolicies, List.foldl_cons] at *
    rw [ih (acc ++ [p])]
    simp

theorem appendIfAbsent_cons (acc : List Policy) (p : Policy) (ps : List Policy) :
    appendIfAbsent acc (p :: ps) =
      appendIfAbsent (if containsPid acc p then acc else acc ++ [p]) ps := rfl

theorem appendIfAbsent_of_fresh (ps : List Policy) :
    ∀ acc : List Policy, (ps.map (fun p => p.id)).Nodup →
      (∀ p ∈ ps, containsPid acc p = false) →
      appendIfAbsent acc ps = acc ++ ps := by
  induction ps with
  | nil => intro acc _ _; simp [appendIfAbsent]
  | cons p ps ih =>
    intro acc hnd hfresh
    have hp : containsPid acc p = false := hfresh p (List.mem_cons_self p ps)
    rw [appendIfAbsent_cons, hp]
    simp only [Bool.false_eq_true, if_false]
    have hnd' := hnd
    rw [List.map_cons, List.nodup_cons] at hnd'
    have step : appendIfAbsent (acc ++ [p]) ps = (acc ++ [p]) ++ ps := by
      apply ih
      · exact hnd'.2
      · intro q hq
        have hqacc : containsPid acc q = false := hfresh q (List.mem_cons_of_mem p hq)
        have hqid : ¬ (p.id = q.id) := by
          intro hEq
          exact hnd'.1 (hEq ▸ List.mem_map_of_mem (fun r => r.id) hq)
        simp only [containsPid, List.any_append, List.any_cons, List.any_nil] at hqacc ⊢
        simp [hqacc, hqid]
    rw [step]
    simp

/-- The `dedupByPid` of a concatenation runs the dedup loop over the pieces in
turn. -/
theorem dedupByPid_append (l1 l2 : List Policy) :
    dedupByPid (l1 ++ l2) = appendIfAbsent (dedupByPid l1) l2 := by
  simp [dedupByPid, appendIfAbsent, List.foldl_append]

theorem dedupByPid_of_nodup (l : List Policy)
    (h : (l.map (fun p => p.id)).Nodup) : dedupByPid l = l := by
  have := appendIfAbsent_of_fresh l [] h (by intro p _; rfl)
  simpa [dedupByPid, appendIfAbsent] using this

/-! ## Claim C1 -/

/-- Claim **C1** (confirmed).  For every device, `device_policy` returns the
applied-policies list equal to the deduplication (by policy primary key,
first occurrence kept) of device-tier ++ group-tier ++ global-tier; the
effective policy is the head of that list, and it is `none` exactly when the
list is empty (a valid result, not an error).  The hypothesis — device-tier
candidates carry pairwise-distinct policy ids — is the database
`unique_together ('policy', 'device')` constraint, which the first resolver
loop (the only one without a membership check) relies on. -/
theorem C1_resolver_precedence_dedup_head (st : PolicyStore) (d : Nat)
    (hnodup : (((device_assignments st d).map (fun a => a.policy)).map
      (fun p => p.id)).Nodup) :
    applied_policies st d =
      dedupByPid (((device_assignments st d).map (fun a => a.policy))
        ++ ((group_assignments st d).map (fun a => a.policy))
        ++ global_policies st)
    ∧ effective_policy st d = (applied_policies st d).head?
    ∧ (effective_policy st d = none ↔ applied_policies st d = []) := by
  refine ⟨?_, rfl, ?_⟩
  · have h3 : dedupByPid (((device_assignments st d).map (fun a => a.policy))
        ++ ((group_assignments st d).map (fun a => a.policy))
        ++ global_policies st)
      = appendIfAbsent (appendIfAbsent
          (dedupByPid ((device_assignments st d).map (fun a => a.policy)))
          ((group_assignments st d).map (fun a => a.policy)))
          (global_policies st) := by
      rw [dedupByPid_append, dedupByPid_append]
    rw [h3, dedupByPid_of_nodup _ hnodup]
    show appendIfAbsent (appendIfAbsent
        (appendPolicies [] ((device_assignments st d).map (fun a => a.policy)))
        ((group_assignments st d).map (fun a => a.policy))) (global_policies st) = _
    rw [appendPolicies_eq, List.nil_append]
  · unfold effective_policy
    cases applied_policies st d <;> simp

/-- Witness for C1: on `precStore`, the device-tier hypothesis holds and the
resolver yields the device-assigned policy (priority 0) ahead of the
group-assigned (priority 100) and global policies. -/
theorem C1_witness :
    applied_policies precStore 1 =
      dedupByPid (((device_assignments precStore 1).map (fun a => a.policy))
        ++ ((group_assignments precStore 1).map (fun a => a.policy))
        ++ global_policies precStore)
    ∧ applied_policies precStore 1 = [polDev, polGrp, polGlob]
    ∧ effective_policy precStore 1 = some polDev := by
  have h := C1_resolver_precedence_dedup_head precStore 1 (by decide)
  exact ⟨h.1, by decide, by decide⟩

/-! ## Claim C2 -/

/-- Claim **C2** (refuted).  The claim says that within a tier equal-priority
candidates are ordered newest-first, so that of two equal-priority
device-tier policies the more recently created wins.  On `tieStore` the two
device-tier policies have equal priority 5, yet the resolver's effective
policy is `polOld` (created at 10), not the newer `polNew` (created at 20):
the view's `order_by('-policy__priority')` replaces the model's default
`['-priority', '-created_at']` ordering, leaving ties in row order. -/
theorem C2_counterexample :
    effective_policy tieStore 1 = some polOld
    ∧ effective_policy tieStore 1 ≠ some polNew
    ∧ polOld.priority = polNew.priority
    ∧ polOld.created_at < polNew.created_at := by
  exact ⟨by decide, by decide, by decide, by decide⟩

/-- Claim **C2 amended** (proved).  Within each tier candidates are ordered by
priority descending only; no creation-time tie-break is applied — for every
priority value, the candidates carrying it come out in exactly the order the
rows occur in the underlying table, so the resolver inherits the store's
residual tie order instead of preferring the more recently created policy. -/
theorem C2_amended_priority_desc_only (st : PolicyStore) (d : Nat) :
    ((device_assignments st d).Pairwise
        (fun a b => b.policy.priority ≤ a.policy.priority)
      ∧ ∀ k : Int,
          (device_assignments st d).filter (fun a => a.policy.priority == k)
            = (st.assignments.filter (fun a =>
                a.device == some d && a.is_active && a.policy.is_active)).filter
                (fun a => a.policy.priority == k))
    ∧ ((group_assignments st d).Pairwise
        (fun a b => b.policy.priority ≤ a.policy.priority)
      ∧ ∀ k : Int,
          (group_assignments st d).filter (fun a => a.policy.priority == k)
            = (st.assignments.filter (fun a =>
                (match a.device_group with
                  | some g => memberOf st g d
                  | none => false) && a.is_active && a.policy.is_active)).filter
                (fun a => a.policy.priority == k))
    ∧ ((global_policies st).Pairwise (fun p q => q.priority ≤ p.priority)
      ∧ ∀ k : Int,
          (global_policies st).filter (fun p => p.priority == k)
            = (st.policies.filter
                (fun p => p.scope == Scope.global && p.is_active)).filter
                (fun p => p.priority == k)) := by
  refine ⟨⟨?_, ?_⟩, ⟨?_, ?_⟩, ⟨?_, ?_⟩⟩
  · exact sorted_orderByDesc (fun a : PolicyAssignment => a.policy.priority) _
  · intro k
    exact filter_orderByDesc (fun a : PolicyAssignment => a.policy.priority) _ k
  · exact sorted_orderByDesc (fun a : PolicyAssignment => a.policy.priority) _
  · intro k
    exact filter_orderByDesc (fun a : PolicyAssignment => a.policy.priority) _ k
  · exact sorted_orderByDesc (fun p : Policy => p.priority) _
  · intro k
    exact filter_orderByDesc (fun p : Policy => p.priority) _ k

/-! ## Claim C3 -/

/-- Claim **C3** (confirmed).  For a device that has been seen, `is_online` is
true exactly when `now − last_seen` is strictly below the fixed 5-minute
(300 s) threshold — the boundary case is offline — and the result depends on
nothing but `last_seen` and the clock: it reads no per-policy heartbeat
interval (no policy is even in scope of the function). -/
theorem C3_is_online_strict_five_minutes (d : Device) (now t : Int)
    (h : d.last_seen = some t) :
    (is_online d now = true ↔ now - t < 300)
    ∧ (now - t = 300 → is_online d now = false)
    ∧ (∀ d2 : Device, d2.last_seen = d.last_seen →
        ∀ m : Int, is_online d2 m = is_online d m)
    ∧ ONLINE_THRESHOLD_SECONDS = 300 := by
  refine ⟨?_, ?_, ?_, rfl⟩
  · simp [is_online, h, ONLINE_THRESHOLD_SECONDS]
  · intro hb
    simp [is_online, h, ONLINE_THRESHOLD_SECONDS, hb]
  · intro d2 h2 m
    unfold is_online
    rw [h2]

/-- Witness for C3 at `devA` (last seen at 100): online at time 350
(250 s elapsed), offline at exactly 400 (300 s elapsed). -/
theorem C3_witness : is_online devA 350 = true ∧ is_online devA 400 = false :=
  ⟨(C3_is_online_strict_five_minutes devA 350 100 rfl).1.mpr (by decide),
   (C3_is_online_strict_five_minutes devA 400 100 rfl).2.1 (by decide)⟩

/-! ## Claim C4 -/

/-- Claim **C4** (refuted).  On `tieStore`, policy 1 is referenced by an active
assignment, yet the DELETE endpoint succeeds and the referencing assignment
row is silently removed together with the policy — there is no
`ReferencedByAssignments` rejection and the store does not stay
unchanged. -/
theorem C4_counterexample :
    (tieStore.assignments.filter (fun a => a.policy.id == 1 && a.is_active)) ≠ []
    ∧ (api_policy_delete tieStore 1).1 = DeleteResult.success
    ∧ (api_policy_delete tieStore 1).2.assignments
        = [{ id := 2, policy := polNew, device := some 1,
             device_group := none, is_active := true }]
    ∧ (api_policy_delete tieStore 1).2.assignments ≠ tieStore.assignments := by
  exact ⟨by decide, by decide, by decide, by decide⟩

/-- Claim **C4 amended** (proved).  Deleting an existing policy always succeeds —
no referencing-assignments check exists — and every assignment referencing
the policy is silently cascade-deleted with it, while all other rows are
kept. -/
theorem C4_amended_delete_cascades (st : PolicyStore) (pid : Nat) (q : Policy)
    (h : st.policies.find? (fun p => p.id == pid) = some q) :
    (api_policy_delete st pid).1 = DeleteResult.success
    ∧ (api_policy_delete st pid).2.policies
        = st.policies.filter (fun p => p.id != pid)
    ∧ (api_policy_delete st pid).2.assignments
        = st.assignments.filter (fun a => a.policy.id != pid)
    ∧ ∀ a ∈ (api_policy_delete st pid).2.assignments, a.policy.id ≠ pid := by
  unfold api_policy_delete
  rw [h]
  refine ⟨rfl, rfl, rfl, ?_⟩
  intro a ha
  have hmem : a ∈ st.assignments.filter (fun a => a.policy.id != pid) := ha
  have := List.of_mem_filter hmem
  simpa using this

/-- Witness for C4 at `tieStore`: deleting policy 1 succeeds and the result
contains no assignment referencing it. -/
theorem C4_witness :
    (api_policy_delete tieStore 1).1 = DeleteResult.success
    ∧ ∀ a ∈ (api_policy_delete tieStore 1).2.assignments, a.policy.id ≠ 1 :=
  let h := C4_amended_delete_cascades tieStore 1 polOld (by decide)
  ⟨h.1, h.2.2.2⟩

/-! ## Claim C5 -/

/-- Claim **C5** (refuted).  The exactly-one-target invariant does not hold of
every stored assignment: PATCHing `device_group := 7` onto the
device-targeted assignment 1 of `tieStore` goes through the update
serializer, which re-runs no validation, and succeeds — the resulting store
holds an assignment with both a device and a group target. -/
theorem C5_counterexample :
    assignment_update tieStore 1 (some (some 7)) none = Except.ok bothTargetsStore
    ∧ bothTargetsStore.assignments.any
        (fun a => a.device.isSome && a.device_group.isSome) = true := by
  exact ⟨by rfl, by decide⟩

/-- Claim **C5 amended** (proved).  The exactly-one-target rule is enforced at
creation only: creating with both or neither target set fails (nothing
stored), a successful creation appends a row with exactly one target, an
existing (policy, device) pair makes a device-targeted creation fail on the
unique constraint, and an existing (policy, device-group) pair likewise
makes a group-targeted creation fail — so at most one assignment (hence at
most one active one) can exist per pair on either index — but updates are
not re-validated (see the counterexample). -/
theorem C5_amended_create_validates (st : PolicyStore) (aid : Nat) (p : Policy)
    (device device_group : Option Nat) (act : Bool) :
    (((device = none ∧ device_group = none)
        ∨ (device ≠ none ∧ device_group ≠ none)) →
      ∃ e, assignment_create st aid p device device_group act = Except.error e)
    ∧ (∀ st2, assignment_create st aid p device device_group act = Except.ok st2 →
        st2.assignments = st.assignments ++
          [{ id := aid, policy := p, device := device,
             device_group := device_group, is_active := act }]
        ∧ ((device ≠ none ∧ device_group = none)
            ∨ (device = none ∧ device_group ≠ none)))
    ∧ ((∃ a ∈ st.assignments, a.policy.id = p.id ∧ a.device = device) →
        device ≠ none → device_group = none →
        assignment_create st aid p device device_group act
          = Except.error "IntegrityError")
    ∧ ((∃ a ∈ st.assignments, a.policy.id = p.id ∧ a.device_group = device_group) →
        device_group ≠ none → device = none →
        assignment_create st aid p device device_group act
          = Except.error "IntegrityError") := by
  refine ⟨?_, ?_, ?_, ?_⟩
  · rintro (⟨hd, hg⟩ | ⟨hd, hg⟩)
    · subst hd; subst hg
      exact ⟨_, rfl⟩
    · rcases Option.ne_none_iff_exists.mp hd with ⟨x, hx⟩
      rcases Option.ne_none_iff_exists.mp hg with ⟨y, hy⟩
      subst hx; subst hy
      exact ⟨_, rfl⟩
  · intro st2 hok
    cases hd : device with
    | none =>
      cases hg : device_group with
      | none =>
        subst hd; subst hg
        simp [assignment_create, assignment_validate] at hok
      | some y =>
        subst hd; subst hg
        constructor
        · by_cases hc : unique_conflict st.assignments p.id none (some y)
          · simp [assignment_create, assignment_validate, hc] at hok
          · simp [assignment_create, assignment_validate, hc] at hok
            rw [← hok]
        · right; exact ⟨rfl, by simp⟩
    | some x =>
      cases hg : device_group with
      | none =>
        subst hd; subst hg
        constructor
        · by_cases hc : unique_conflict st.assignments p.id (some x) none
          · simp [assignment_create, assignment_validate, hc] at hok
          · simp [assignment_create, assignment_validate, hc] at hok
            rw [← hok]
        · left; exact ⟨by simp, rfl⟩
      | some y =>
        subst hd; subst hg
        simp [assignment_create, assignment_validate] at hok
  · rintro ⟨a, ha, hpid, hdev⟩ hd hg
    subst hg
    rcases Option.ne_none_iff_exists.mp hd with ⟨x, hx⟩
    subst hx
    have hc : unique_conflict st.assignments p.id (some x) none = true := by
      apply List.any_eq_true.mpr
      refine ⟨a, ha, ?_⟩
      simp [hpid, hdev]
    simp [assignment_create, assignment_validate, hc]
  · rintro ⟨a, ha, hpid, hgrp⟩ hg hd
    subst hd
    rcases Option.ne_none_iff_exists.mp hg with ⟨y, hy⟩
    subst hy
    have hc : unique_conflict st.assignments p.id none (some y) = true := by
      apply List.any_eq_true.mpr
      refine ⟨a, ha, ?_⟩
      simp [hpid, hgrp]
    simp [assignment_create, assignment_validate, hc]

/-- Witness for C5: creating an assignment with both targets set fails,
creating one that duplicates an existing (policy, device) pair fails on the
unique constraint, and so does one duplicating an existing
(policy, device-group) pair. -/
theorem C5_witness :
    (∃ e, assignment_create tieStore 9 polGrp (some 1) (some 5) true
      = Except.error e)
    ∧ assignment_create tieStore 9 polOld (some 1) none true
      = Except.error "IntegrityError"
    ∧ assignment_create precStore 9 polGrp none (some 5) true
      = Except.error "IntegrityError" :=
  ⟨(C5_amended_create_validates tieStore 9 polGrp (some 1) (some 5) true).1
      (Or.inr ⟨by decide, by decide⟩),
   (C5_amended_create_validates tieStore 9 polOld (some 1) none true).2.2.1
      ⟨{ id := 1, policy := polOld, device := some 1,
         device_group := none, is_active := true },
        by decide, by decide, by decide⟩
      (by decide) rfl,
   (C5_amended_create_validates precStore 9 polGrp none (some 5) true).2.2.2
      ⟨{ id := 1, policy := polGrp, device := none,
         device_group := some 5, is_active := true },
        by decide, by decide, by decide⟩
      (by decide) rfl⟩

/-! ## Claim C6 -/

/-- Claim **C6** (refuted).  The dashboard creation endpoint accepts an idle
timeout of 5 s — far below the 30 s bound — reports success and stores the
value verbatim: out-of-range values are not rejected on this path (they are
also not clamped; the bound is simply never checked). -/
theorem C6_counterexample :
    (api_policies_post emptyPolicyStore 1 0 badPayload).1 = true
    ∧ (api_policies_post emptyPolicyStore 1 0 badPayload).2.policies
        = [policy_from_payload 1 0 Scope.global badPayload]
    ∧ (policy_from_payload 1 0 Scope.global badPayload).idle_timeout_seconds = 5
    ∧ policy_bounds_ok (policy_from_payload 1 0 Scope.global badPayload) = false := by
  exact ⟨by decide, by decide, by decide, by decide⟩

/-- Claim **C6 amended** (proved).  The numeric bounds are enforced only on the
DRF serializer paths, for creation and update alike: there an out-of-range
value is rejected with nothing stored, and an in-range value is stored
exactly as given (never clamped).  The dashboard JSON endpoints — creation
POST and update PUT — store whatever values the payload carries, also
unclamped, with no range check at all. -/
theorem C6_amended_bounds_only_on_drf_path (st : PolicyStore) (pid : Nat)
    (now : Int) (pl : PolicyPayload) :
    (policy_bounds_ok (policy_from_payload pid now (pl.scope.getD Scope.global) pl)
        = false →
      drf_policy_create st pid now pl = Except.error "ValidationRange")
    ∧ (policy_bounds_ok (policy_from_payload pid now (pl.scope.getD Scope.global) pl)
        = true →
      drf_policy_create st pid now pl = Except.ok { st with policies :=
        st.policies ++ [policy_from_payload pid now (pl.scope.getD Scope.global) pl] })
    ∧ (∀ sc : Scope, pl.scope = some sc →
      api_policies_post st pid now pl = (true, { st with policies :=
        st.policies ++ [policy_from_payload pid now sc pl] }))
    ∧ (∀ p : Policy, st.policies.find? (fun q => q.id == pid) = some p →
      payload_bounds_ok pl = false →
      drf_policy_update st pid pl = Except.error "ValidationRange")
    ∧ (∀ p : Policy, st.policies.find? (fun q => q.id == pid) = some p →
      payload_bounds_ok pl = true →
      drf_policy_update st pid pl = Except.ok
        { st with policies := st.policies.map (fun q =>
            if q.id == pid then policy_with_payload p pl else q) })
    ∧ (∀ p : Policy, st.policies.find? (fun q => q.id == pid) = some p →
      api_policy_put st pid pl =
        (true, { st with policies := st.policies.map (fun q =>
            if q.id == pid then policy_with_payload p pl else q) })) := by
  refine ⟨?_, ?_, ?_, ?_, ?_, ?_⟩
  · intro hb
    simp [drf_policy_create, hb]
  · intro hb
    simp [drf_policy_create, hb]
  · intro sc hsc
    simp [api_policies_post, hsc]
  · intro p hp hb
    unfold drf_policy_update
    rw [hp]
    simp [hb]
  · intro p hp hb
    unfold drf_policy_update
    rw [hp]
    simp [hb]
  · intro p hp
    unfold api_policy_put
    rw [hp]

/-- Witness for C6: both DRF paths reject `badPayload` — creation on the
empty store, update of policy 1 of `tieStore` — while the dashboard
creation path (see the counterexample) and the dashboard PUT accept it,
the PUT storing the out-of-range idle timeout 5 verbatim. -/
theorem C6_witness :
    drf_policy_create emptyPolicyStore 1 0 badPayload
      = Except.error "ValidationRange"
    ∧ api_policies_post emptyPolicyStore 1 0 badPayload
      = (true, { emptyPolicyStore with policies :=
          [policy_from_payload 1 0 Scope.global badPayload] })
    ∧ drf_policy_update tieStore 1 badPayload = Except.error "ValidationRange"
    ∧ api_policy_put tieStore 1 badPayload
      = (true, { tieStore with policies := tieStore.policies.map (fun q =>
          if q.id == 1 then policy_with_payload polOld badPayload else q) })
    ∧ (policy_with_payload polOld badPayload).idle_timeout_seconds = 5 :=
  let h := C6_amended_bounds_only_on_drf_path emptyPolicyStore 1 0 badPayload
  let h2 := C6_amended_bounds_only_on_drf_path tieStore 1 0 badPayload
  ⟨h.1 (by decide),
   by
    have h3 := h.2.2.1 Scope.global (by decide)
    simpa using h3,
   h2.2.2.2.1 polOld (by decide) (by decide),
   h2.2.2.2.2.2 polOld (by decide),
   by decide⟩

/-! ## Claim C7 -/

/-- Claim **C7** (refuted).  A `failed` action is terminal, yet `mark_completed`
moves it to `completed` (changing the record, with no `InvalidTransition`
anywhere in the code), and the action detail endpoint PATCHes its status
back to `pending`. -/
theorem C7_counterexample :
    failedAction.status.isTerminal = true
    ∧ (mark_completed failedAction 60).status = ActionStatus.completed
    ∧ mark_completed failedAction 60 ≠ failedAction
    ∧ (action_detail_update failedAction (some ActionStatus.pending)).status
        = ActionStatus.pending := by
  exact ⟨by decide, by decide, by decide, by decide⟩

/-- Claim **C7 amended** (proved).  No transition guard exists at all:
`mark_completed` and `mark_failed` overwrite the status and stamp
`completed_at` unconditionally, whatever the current status (terminal
included), and the detail endpoint sets any requested status. -/
theorem C7_amended_no_terminal_guard (a : DeviceAction) (now : Int)
    (e : Option String) :
    (mark_completed a now).status = ActionStatus.completed
    ∧ (mark_completed a now).completed_at = some now
    ∧ (mark_failed a now e).status = ActionStatus.failed
    ∧ (mark_failed a now e).completed_at = some now
    ∧ ∀ s : ActionStatus, (action_detail_update a (some s)).status = s := by
  exact ⟨rfl, rfl, rfl, rfl, fun s => rfl⟩

/-! ## Claim C8 -/

/-- Claim **C8** (refuted on the metadata clause).  A heartbeat for known device 7
returns 200 and updates the device, but the device's free-form metadata
(`hardware_info`) is left exactly as it was — it is not merged with the
reported metadata, which goes only into a fresh `DeviceHeartbeat` row; the
merging helper `Device.update_heartbeat` is never invoked by the
endpoint. -/
theorem C8_counterexample :
    (device_heartbeat devStore 7 hbPayload 200).1 = 200
    ∧ ((device_heartbeat devStore 7 hbPayload 200).2.devices.map
        (fun d => d.hardware_info)) = [[("cpu", 4)]]
    ∧ mergeAssoc [("cpu", 4)] [("ram", 8)] = [("cpu", 4), ("ram", 8)]
    ∧ ((device_heartbeat devStore 7 hbPayload 200).2.devices.map
        (fun d => d.hardware_info)) ≠ [mergeAssoc [("cpu", 4)] [("ram", 8)]] := by
  exact ⟨by decide, by decide, by decide, by decide⟩

/-- Claim **C8 amended** (proved).  A heartbeat for a known device returns 200,
sets `last_seen := now`, overwrites `status` and `is_locked` with the
reported values, leaves the device's free-form `hardware_info` untouched
(no merge), and appends a heartbeat row carrying the reported metadata; an
unknown device id yields 404 with the store unchanged. -/
theorem C8_amended_heartbeat_no_merge (st : DeviceStore) (did : Nat)
    (pl : HeartbeatPayload) (now : Int) (d : Device)
    (h : st.devices.find? (fun x => x.device_id == did) = some d) :
    device_heartbeat st did pl now =
      (200,
        { devices := st.devices.map (fun x => if x.id == d.id then
            { d with
              status := pl.status
              is_locked := pl.is_locked
              last_seen := some now } else x)
          heartbeats := st.heartbeats ++
            [{ device_pk := d.id, status := pl.status, is_locked := pl.is_locked,
               agent_version := pl.agent_version.getD "",
               metadata := pl.metadata.getD [] }] })
    ∧ ({ d with
          status := pl.status
          is_locked := pl.is_locked
          last_seen := some now } : Device).hardware_info = d.hardware_info
    ∧ (∀ st2 : DeviceStore, ∀ did2 : Nat,
        st2.devices.find? (fun x => x.device_id == did2) = none →
        device_heartbeat st2 did2 pl now = (404, st2)) := by
  refine ⟨?_, rfl, ?_⟩
  · unfold device_heartbeat
    rw [h]
  · intro st2 did2 hnone
    unfold device_heartbeat
    rw [hnone]

/-- Witness for C8 at `devStore`: the known-device branch returns 200. -/
theorem C8_witness : (device_heartbeat devStore 7 hbPayload 200).1 = 200 := by
  have h := C8_amended_heartbeat_no_merge devStore 7 hbPayload 200 devA (by decide)
  rw [h.1]

/-! ## Claim C9 -/

/-- Claim **C9** (refuted).  `devStore` already holds an active device with
hostname pc1 and MAC AA:BB; registering the very same identity succeeds
(201) and creates a second device — there is no `DuplicateIdentity` check
anywhere on the registration path. -/
theorem C9_counterexample :
    devStore.devices.any (fun d =>
      d.hostname == "pc1" && d.mac_address == "AA:BB" && d.is_active) = true
    ∧ (device_register devStore regPayload 2 42).1 = 201
    ∧ ((device_register devStore regPayload 2 42).2.devices.filter (fun d =>
        d.hostname == "pc1" && d.mac_address == "AA:BB")).length = 2 := by
  exact ⟨by decide, by decide, by decide⟩

/-- Claim **C9 amended** (proved).  Registration always succeeds and appends a
device carrying the freshly generated `device_id`, regardless of any
existing device with the same hostname and MAC; the uniqueness that does
hold is of the generated `device_id` itself (fresh UUID), not of the
natural key. -/
theorem C9_amended_register_always_creates (st : DeviceStore)
    (pl : RegisterPayload) (fpk fid : Nat)
    (hfresh : st.devices.all (fun d => d.device_id != fid) = true)
    (hnodup : (st.devices.map (fun d => d.device_id)).Nodup) :
    (device_register st pl fpk fid).1 = 201
    ∧ (device_register st pl fpk fid).2.devices = st.devices ++
        [{ id := fpk, device_id := fid, name := pl.name,
           hostname := pl.hostname, mac_address := pl.mac_address,
           status := "offline", is_locked := false, last_seen := none,
           hardware_info := [], is_active := true }]
    ∧ ((device_register st pl fpk fid).2.devices.map
        (fun d => d.device_id)).Nodup := by
  refine ⟨rfl, rfl, ?_⟩
  have hnotmem : fid ∉ st.devices.map (fun d => d.device_id) := by
    intro hmem
    rcases List.mem_map.mp hmem with ⟨d, hd, hdid⟩
    have := List.all_eq_true.mp hfresh d hd
    simp [hdid] at this
  simp only [device_register, List.map_append]
  apply List.Nodup.append hnodup (by simp)
  intro x hx hy
  simp only [List.map_cons, List.map_nil, List.mem_singleton] at hy
  subst hy
  exact hnotmem hx

/-- Witness for C9: registering against `devStore` with fresh ids. -/
theorem C9_witness :
    (device_register devStore regPayload 2 42).1 = 201
    ∧ ((device_register devStore regPayload 2 42).2.devices.map
        (fun d => d.device_id)).Nodup :=
  let h := C9_amended_register_always_creates devStore regPayload 2 42
    (by decide) (by decide)
  ⟨h.1, h.2.2⟩

/-! ## Claim C10 -/

/-- Claim **C10** (confirmed).  For every caller whose role passes the permission
check, both the lock and the unlock endpoints answer HTTP 500 and never
success: `lock_screen`/`unlock_screen` create an `Event` with the keyword
`details`, which is not an `Event` field (the field is `message`), so the
body raises and the blanket handler returns 500 — and the views additionally
pass `(request.user, reason)` positionally, binding the user object to
`lock_screen`'s `reason` parameter (last conjunct), which makes the call
fail even earlier at the `initiated_by` foreign key; with the arguments in
the correct order the `details` keyword still raises (second-to-last
conjunct). -/
theorem C10_lock_unlock_always_500 (role : String)
    (h : lock_allowed_roles.contains role = true)
    (d : LockDevice) (uid : Nat) (reason : String) (now : Int) :
    device_lock_view role d (PyVal.pyuser uid) reason now = 500
    ∧ device_unlock_view role d (PyVal.pyuser uid) reason now = 500
    ∧ event_model_fields.contains "details" = false
    ∧ event_model_fields.contains "message" = true
    ∧ (∃ e, lock_screen d (PyVal.pystr reason) (PyVal.pyuser uid) now
        = Except.error e)
    ∧ lock_screen_call d [PyVal.pyuser uid, PyVal.pystr reason] now
        = lock_screen d (PyVal.pyuser uid) (PyVal.pystr reason) now := by
  have hm : role ∈ lock_allowed_roles := by simpa using h
  refine ⟨?_, ?_, by decide, by decide, ⟨_, rfl⟩, rfl⟩
  · simp [device_lock_view, hm, lock_screen_call, lock_screen,
      device_action_create]
  · simp [device_unlock_view, hm, unlock_screen_call]

/-- Witness for C10 with the superadmin role on `lockDevA`. -/
theorem C10_witness :
    device_lock_view "superadmin" lockDevA (PyVal.pyuser 1) "test" 0 = 500
    ∧ device_unlock_view "superadmin" lockDevA (PyVal.pyuser 1) "test" 0 = 500 :=
  let h := C10_lock_unlock_always_500 "superadmin" (by decide) lockDevA 1 "test" 0
  ⟨h.1, h.2.1⟩

end ScreenLock
